import Mathlib

/-!
Verification of the supply-chain numeric core: a demand forecaster
(backend/agents/demand_forecaster.py), an inventory policy optimizer
(backend/agents/meio_optimizer.py) and a replenishment planner
(backend/agents/replenishment_planner.py).

Python floats are modelled as real numbers; quantities, service levels and
the z-table are modelled as rationals (every float is a rational), so the
lookup and rounding logic stays computable while square roots live in ℝ.
Dates are modelled as integers counting days, which matches the daily
granularity the forecaster works at after its resample("D") step.
-/

namespace SupplyChain

/-- Rounding a rational to the nearest integer with ties to even,
modelling the Python built-in round (banker's rounding). -/
def roundHalfEven (q : ℚ) : ℤ :=
  if q - ⌊q⌋ < 1/2 then ⌊q⌋
  else if 1/2 < q - ⌊q⌋ then ⌊q⌋ + 1
  else if ⌊q⌋ % 2 = 0 then ⌊q⌋ else ⌊q⌋ + 1

/-- Rounding to two decimal places, modelling Python round(x, 2). -/
def round2 (q : ℚ) : ℚ := (roundHalfEven (100 * q) : ℚ) / 100

/-- Predefined z-scores for selected cycle service levels: the module-level
Z_VALUES dictionary of meio_optimizer.py, as an association list. -/
def Z_VALUES : List (ℚ × ℚ) :=
  [(0.50, 0.0), (0.60, 0.2533471), (0.70, 0.5244005), (0.80, 0.8416212),
   (0.85, 1.0364334), (0.90, 1.2815516), (0.95, 1.6448536), (0.98, 2.0537489),
   (0.99, 2.3263479)]

/-- Keys of the default z-table. -/
def Z_keys : List ℚ := Z_VALUES.map Prod.fst

/-- Service-level to z-score lookup with the fixed fallback, modelling the
expression z_values.get(round(target_csl, 2), 1.2815516) in
optimize_inventory. -/
def z_lookup (zv : List (ℚ × ℚ)) (c : ℚ) : ℚ :=
  (zv.lookup (round2 c)).getD 1.2815516

/-- Result dictionary of optimize_inventory. -/
structure InventoryPolicy where
  mu_lt : ℝ
  sigma_lt : ℝ
  safety_stock : ℝ
  reorder_point : ℝ
  base_stock : ℝ

/-- Embedding of meio_optimizer.optimize_inventory: mean and std of demand
during lead time, z-score lookup (with the 1.2815516 fallback), safety
stock, reorder point and the simplified base stock. The optional z_values
argument mirrors the Python default of None meaning the module table. -/
noncomputable def optimize_inventory
    (mean_demand_per_day std_demand_per_day lead_time_mean lead_time_std : ℝ)
    (target_csl : ℚ) (z_values : Option (List (ℚ × ℚ))) : InventoryPolicy :=
  let zv := z_values.getD Z_VALUES
  let mu_lt := mean_demand_per_day * lead_time_mean
  let sigma_lt := Real.sqrt
    (lead_time_mean * std_demand_per_day ^ 2 +
      mean_demand_per_day ^ 2 * lead_time_std ^ 2)
  let z := z_lookup zv target_csl
  let safety_stock := (z : ℝ) * sigma_lt
  let reorder_point := mu_lt + safety_stock
  let base_stock := reorder_point + mu_lt
  ⟨mu_lt, sigma_lt, safety_stock, reorder_point, base_stock⟩

/-- Embedding of replenishment_planner.compute_replenishment: an order-up-to
policy returning int(max(0.0, round(base_stock - net_available))) when net
available is below the reorder point, else 0. -/
def compute_replenishment (net_available reorder_point base_stock : ℚ) : ℤ :=
  if net_available < reorder_point then
    max 0 (roundHalfEven (base_stock - net_available))
  else 0

/-- Row of the sales history: date (day number), SKU, site, quantity. -/
structure SalesRecord where
  date : ℤ
  sku_id : String
  site_id : String
  qty : ℚ

/-- Record matches the requested SKU and site (case-sensitive equality),
the filter predicate of forecast_demand. -/
def recordMatches (r : SalesRecord) (sku site : String) : Bool :=
  r.sku_id == sku && r.site_id == site

/-- Rows of the history matching the requested SKU and site, the filtered
frame df of forecast_demand. -/
def filteredHistory (sales : List SalesRecord) (sku site : String) :
    List SalesRecord :=
  sales.filter (fun r => recordMatches r sku site)

/-- Total quantity recorded on a given day, the per-bin sum of
resample("D").sum(). -/
def dailyTotal (l : List SalesRecord) (d : ℤ) : ℚ :=
  (l.map (fun r => if r.date = d then r.qty else 0)).sum

/-- Earliest date in a non-empty record list (0 for the empty list). -/
def minDate (l : List SalesRecord) : ℤ :=
  match l with
  | [] => 0
  | r :: rs => rs.foldl (fun m s => min m s.date) r.date

/-- Latest date in a non-empty record list (0 for the empty list). -/
def maxDate (l : List SalesRecord) : ℤ :=
  match l with
  | [] => 0
  | r :: rs => rs.foldl (fun m s => max m s.date) r.date

/-- Embedding of demand_forecaster._aggregate_daily_series: the continuous
daily series from the earliest to the latest date of the records, one entry
per day, summing quantities per day and zero-filling absent days. -/
def aggregate_daily_series (l : List SalesRecord) : List ℚ :=
  if l.isEmpty then []
  else
    (List.range ((maxDate l - minDate l).toNat + 1)).map
      (fun i => dailyTotal l (minDate l + i))

/-- Last n entries of a list (all of it when it is shorter), modelling
pandas Series.tail(n). -/
def tailN (l : List ℚ) (n : ℕ) : List ℚ := l.drop (l.length - n)

/-- Arithmetic mean of a list, 0 when empty, modelling
recent.mean() if not recent.empty else 0.0. -/
def listMean (l : List ℚ) : ℚ :=
  if l.isEmpty then 0 else l.sum / (l.length : ℚ)

/-- Population variance (divisor N) of a list, the square of
Series.std(ddof=0). -/
def popVar (l : List ℚ) : ℚ :=
  (l.map (fun x => (x - listMean l) ^ 2)).sum / (l.length : ℚ)

/-- Population standard deviation, Series.std(ddof=0). -/
noncomputable def listStd (l : List ℚ) : ℝ := Real.sqrt (popVar l)

/-- Window the statistics of forecast_demand are computed over: the last
history_window entries of the aggregated daily series of the filtered
history. -/
def statsWindow (sales : List SalesRecord) (sku site : String) (w : ℕ) :
    List ℚ :=
  tailN (aggregate_daily_series (filteredHistory sales sku site)) w

/-- One forecast dictionary emitted by forecast_demand. -/
structure ForecastPoint where
  day : ℕ
  p10 : ℝ
  p50 : ℝ
  p90 : ℝ
deriving Inhabited

/-- Embedding of demand_forecaster.forecast_demand: filter the history for
the SKU/site pair, fall back to an all-zero forecast when nothing matches,
otherwise aggregate into a daily series, compute mean and population std
over the last history_window entries, and emit one flat quantile forecast
per horizon day using the 10th/90th-percentile z-scores. -/
noncomputable def forecast_demand
    (sales_data : List SalesRecord) (sku_id site_id : String)
    (history_window forecast_horizon : ℕ) :
    List ForecastPoint × ℝ × ℝ :=
  let df := filteredHistory sales_data sku_id site_id
  if df.isEmpty then
    ((List.range forecast_horizon).map (fun i => ⟨i + 1, 0.0, 0.0, 0.0⟩),
      0.0, 0.0)
  else
    let series := aggregate_daily_series df
    let recent := tailN series history_window
    let mean : ℚ := listMean recent
    let std : ℝ := if 1 < recent.length then listStd recent else 0.0
    let z10 : ℝ := -1.2815515655446004
    let z90 : ℝ := 1.2815515655446004
    let predictions := (List.range forecast_horizon).map (fun i =>
      let p50 : ℝ := (mean : ℝ)
      if 0 < std then
        (⟨i + 1, max 0.0 ((mean : ℝ) + z10 * std), p50,
          max 0.0 ((mean : ℝ) + z90 * std)⟩ : ForecastPoint)
      else
        (⟨i + 1, p50, p50, p50⟩ : ForecastPoint))
    (predictions, (mean : ℝ), std)

/-! Helper lemmas about rounding. -/

theorem floor_nonpos_of_nonpos {q : ℚ} (h : q ≤ 0) : ⌊q⌋ ≤ 0 := by
  have := Int.floor_le_floor (α := ℚ) h
  simpa using this

theorem roundHalfEven_nonneg {q : ℚ} (h : 0 ≤ q) : 0 ≤ roundHalfEven q := by
  have h0 : (0 : ℤ) ≤ ⌊q⌋ := Int.floor_nonneg.mpr h
  unfold roundHalfEven
  split_ifs <;> omega

theorem roundHalfEven_nonpos {q : ℚ} (h : q ≤ 0) : roundHalfEven q ≤ 0 := by
  have hfl : ⌊q⌋ ≤ 0 := floor_nonpos_of_nonpos h
  have hle : (⌊q⌋ : ℚ) ≤ q := Int.floor_le q
  unfold roundHalfEven
  split_ifs with h1 h2 h3
  · exact hfl
  · have hq : (⌊q⌋ : ℚ) < -(1/2) := by linarith
    have : (⌊q⌋ : ℚ) < 0 := by linarith
    have : ⌊q⌋ < 0 := by exact_mod_cast this
    omega
  · exact hfl
  · have hq : (⌊q⌋ : ℚ) ≤ -(1/2) := by
      have : 1/2 ≤ q - ⌊q⌋ := not_lt.mp h1
      linarith
    have : (⌊q⌋ : ℚ) < 0 := by linarith
    have : ⌊q⌋ < 0 := by exact_mod_cast this
    omega

theorem roundHalfEven_zero : roundHalfEven 0 = 0 := by
  unfold roundHalfEven
  norm_num

theorem max_roundHalfEven (x : ℚ) :
    max 0 (roundHalfEven x) = roundHalfEven (max 0 x) := by
  rcases le_total x 0 with hx | hx
  · rw [max_eq_left hx, roundHalfEven_zero,
      max_eq_left (roundHalfEven_nonpos hx)]
  · rw [max_eq_right hx, max_eq_right (roundHalfEven_nonneg hx)]

/-! Helper lemmas about association-list lookup. -/

theorem lookup_getD_nonneg (l : List (ℚ × ℚ)) (hl : ∀ p ∈ l, 0 ≤ p.2)
    (k d : ℚ) (hd : 0 ≤ d) : 0 ≤ ((l.lookup k).getD d) := by
  induction l with
  | nil => simpa [List.lookup] using hd
  | cons p t ih =>
    rcases p with ⟨a, b⟩
    simp only [List.lookup]
    split
    · simpa using hl ⟨a, b⟩ (List.mem_cons_self _ _)
    · exact ih (fun p hp => hl p (List.mem_cons_of_mem _ hp))

theorem lookup_eq_none_of_not_mem (l : List (ℚ × ℚ)) (k : ℚ)
    (h : k ∉ l.map Prod.fst) : l.lookup k = none := by
  induction l with
  | nil => rfl
  | cons p t ih =>
    rcases p with ⟨a, b⟩
    simp only [List.map_cons, List.mem_cons] at h
    push_neg at h
    simp only [List.lookup]
    split
    · rename_i hk
      exact absurd (eq_of_beq hk) h.1
    · exact ih h.2

theorem lookup_cons_eq {α β : Type} [BEq α] [LawfulBEq α] (k : α) (b : β)
    (es : List (α × β)) : ((k, b) :: es).lookup k = some b := by
  rw [List.lookup_cons]
  simp

theorem lookup_cons_ne {α β : Type} [BEq α] [LawfulBEq α] {k a : α} {b : β}
    {es : List (α × β)} (h : a ≠ k) : ((k, b) :: es).lookup a = es.lookup a := by
  rw [List.lookup_cons]
  simp [beq_eq_false_iff_ne.mpr h]

/-! Helper lemmas about rounding to two decimals. -/

theorem roundHalfEven_intCast (n : ℤ) : roundHalfEven (n : ℚ) = n := by
  unfold roundHalfEven
  rw [Int.floor_intCast, sub_self]
  norm_num

theorem round2_eq_self {q : ℚ} (n : ℤ) (h : 100 * q = (n : ℚ)) :
    round2 q = q := by
  unfold round2
  rw [h, roundHalfEven_intCast, ← h]
  ring

/-! Helper lemmas about the default z-table. -/

theorem Z_VALUES_vals_nonneg : ∀ p ∈ Z_VALUES, 0 ≤ p.2 := by
  intro p hp
  fin_cases hp <;> norm_num

theorem z_lookup_nonneg (c : ℚ) : 0 ≤ z_lookup Z_VALUES c :=
  lookup_getD_nonneg _ Z_VALUES_vals_nonneg _ _ (by norm_num)

theorem z_eval_50 : z_lookup Z_VALUES 0.50 = 0.0 := by
  unfold z_lookup Z_VALUES
  rw [round2_eq_self 50 (by norm_num), lookup_cons_eq]
  rfl

theorem z_eval_60 : z_lookup Z_VALUES 0.60 = 0.2533471 := by
  unfold z_lookup Z_VALUES
  rw [round2_eq_self 60 (by norm_num)]
  repeat first | rw [lookup_cons_eq] | rw [lookup_cons_ne (by norm_num)]
  rfl

theorem z_eval_70 : z_lookup Z_VALUES 0.70 = 0.5244005 := by
  unfold z_lookup Z_VALUES
  rw [round2_eq_self 70 (by norm_num)]
  repeat first | rw [lookup_cons_eq] | rw [lookup_cons_ne (by norm_num)]
  rfl

theorem z_eval_80 : z_lookup Z_VALUES 0.80 = 0.8416212 := by
  unfold z_lookup Z_VALUES
  rw [round2_eq_self 80 (by norm_num)]
  repeat first | rw [lookup_cons_eq] | rw [lookup_cons_ne (by norm_num)]
  rfl

theorem z_eval_85 : z_lookup Z_VALUES 0.85 = 1.0364334 := by
  unfold z_lookup Z_VALUES
  rw [round2_eq_self 85 (by norm_num)]
  repeat first | rw [lookup_cons_eq] | rw [lookup_cons_ne (by norm_num)]
  rfl

theorem z_eval_90 : z_lookup Z_VALUES 0.90 = 1.2815516 := by
  unfold z_lookup Z_VALUES
  rw [round2_eq_self 90 (by norm_num)]
  repeat first | rw [lookup_cons_eq] | rw [lookup_cons_ne (by norm_num)]
  rfl

theorem z_eval_95 : z_lookup Z_VALUES 0.95 = 1.6448536 := by
  unfold z_lookup Z_VALUES
  rw [round2_eq_self 95 (by norm_num)]
  repeat first | rw [lookup_cons_eq] | rw [lookup_cons_ne (by norm_num)]
  rfl

theorem z_eval_98 : z_lookup Z_VALUES 0.98 = 2.0537489 := by
  unfold z_lookup Z_VALUES
  rw [round2_eq_self 98 (by norm_num)]
  repeat first | rw [lookup_cons_eq] | rw [lookup_cons_ne (by norm_num)]
  rfl

theorem z_eval_99 : z_lookup Z_VALUES 0.99 = 2.3263479 := by
  unfold z_lookup Z_VALUES
  rw [round2_eq_self 99 (by norm_num)]
  repeat first | rw [lookup_cons_eq] | rw [lookup_cons_ne (by norm_num)]
  rfl

theorem z_lookup_mono_on_keys :
    ∀ c1 ∈ Z_keys, ∀ c2 ∈ Z_keys, c1 ≤ c2 →
      z_lookup Z_VALUES c1 ≤ z_lookup Z_VALUES c2 := by
  intro c1 hc1 c2 hc2 hle
  simp only [Z_keys, Z_VALUES, List.map_cons, List.map_nil, List.mem_cons,
    List.not_mem_nil, or_false] at hc1 hc2
  rcases hc1 with rfl | rfl | rfl | rfl | rfl | rfl | rfl | rfl | rfl <;>
    rcases hc2 with rfl | rfl | rfl | rfl | rfl | rfl | rfl | rfl | rfl <;>
    simp only [z_eval_50, z_eval_60, z_eval_70, z_eval_80, z_eval_85,
      z_eval_90, z_eval_95, z_eval_98, z_eval_99] <;>
    norm_num at hle ⊢

/-! Helper lemmas about the forecaster. -/

theorem headI_mem_of_ne_nil {α : Type} [Inhabited α] {l : List α}
    (h : l ≠ []) : l.headI ∈ l := by
  cases l with
  | nil => exact absurd rfl h
  | cons a t => exact List.mem_cons_self a t

theorem aggregate_ne_nil {l : List SalesRecord} (h : l ≠ []) :
    aggregate_daily_series l ≠ [] := by
  have hb : l.isEmpty = false := List.isEmpty_eq_false.mpr h
  simp only [aggregate_daily_series, hb, Bool.false_eq_true, if_false]
  simp
  exact ⟨0, Nat.succ_pos _⟩

theorem tailN_suffix (l : List ℚ) (n : ℕ) : tailN l n <:+ l :=
  List.drop_suffix _ _

theorem tailN_length (l : List ℚ) (n : ℕ) :
    (tailN l n).length = min n l.length := by
  simp only [tailN, List.length_drop]
  omega

theorem statsWindow_length (sales : List SalesRecord) (sku site : String)
    (w : ℕ) :
    (statsWindow sales sku site w).length =
      min w (aggregate_daily_series (filteredHistory sales sku site)).length :=
  tailN_length _ _

theorem statsWindow_ne_nil {sales : List SalesRecord} {sku site : String}
    {w : ℕ} (h : filteredHistory sales sku site ≠ []) (hw : 1 ≤ w) :
    statsWindow sales sku site w ≠ [] := by
  intro hnil
  have hlen := statsWindow_length sales sku site w
  rw [hnil] at hlen
  have hagg : (aggregate_daily_series (filteredHistory sales sku site)).length
      ≠ 0 := by
    simpa [List.length_eq_zero] using aggregate_ne_nil h
  simp only [List.length_nil] at hlen
  omega

theorem listMean_of_ne_nil {l : List ℚ} (h : l ≠ []) :
    listMean l = l.sum / (l.length : ℚ) := by
  have hb : l.isEmpty = false := List.isEmpty_eq_false.mpr h
  simp only [listMean, hb, Bool.false_eq_true, if_false]

theorem forecast_demand_of_empty (sales : List SalesRecord)
    (sku site : String) (w hz : ℕ) (h : filteredHistory sales sku site = []) :
    forecast_demand sales sku site w hz =
      ((List.range hz).map (fun i => ⟨i + 1, 0.0, 0.0, 0.0⟩), 0.0, 0.0) := by
  simp only [forecast_demand, h, List.isEmpty_nil, if_true]

theorem forecast_mean_of_nonempty (sales : List SalesRecord)
    (sku site : String) (w hz : ℕ) (h : filteredHistory sales sku site ≠ []) :
    (forecast_demand sales sku site w hz).2.1 =
      ((listMean (statsWindow sales sku site w) : ℚ) : ℝ) := by
  have hb : (filteredHistory sales sku site).isEmpty = false :=
    List.isEmpty_eq_false.mpr h
  simp only [forecast_demand, statsWindow, hb, Bool.false_eq_true, if_false]

theorem forecast_std_of_nonempty (sales : List SalesRecord)
    (sku site : String) (w hz : ℕ) (h : filteredHistory sales sku site ≠ []) :
    (forecast_demand sales sku site w hz).2.2 =
      (if 1 < (statsWindow sales sku site w).length then
        listStd (statsWindow sales sku site w) else 0.0) := by
  have hb : (filteredHistory sales sku site).isEmpty = false :=
    List.isEmpty_eq_false.mpr h
  simp only [forecast_demand, statsWindow, hb, Bool.false_eq_true, if_false]

theorem forecast_points_shape (sales : List SalesRecord) (sku site : String)
    (w hz : ℕ) :
    (forecast_demand sales sku site w hz).1 = (List.range hz).map (fun i =>
      if 0 < (forecast_demand sales sku site w hz).2.2 then
        (⟨i + 1,
          max 0.0 ((forecast_demand sales sku site w hz).2.1 +
            (-1.2815515655446004) * (forecast_demand sales sku site w hz).2.2),
          (forecast_demand sales sku site w hz).2.1,
          max 0.0 ((forecast_demand sales sku site w hz).2.1 +
            1.2815515655446004 * (forecast_demand sales sku site w hz).2.2)⟩ :
          ForecastPoint)
      else
        (⟨i + 1, (forecast_demand sales sku site w hz).2.1,
          (forecast_demand sales sku site w hz).2.1,
          (forecast_demand sales sku site w hz).2.1⟩ : ForecastPoint)) := by
  by_cases h : filteredHistory sales sku site = []
  · rw [forecast_demand_of_empty sales sku site w hz h]
    simp
    intro a ha
    norm_num
  · have hb : (filteredHistory sales sku site).isEmpty = false :=
      List.isEmpty_eq_false.mpr h
    simp only [forecast_demand, hb, Bool.false_eq_true, if_false]

/-! Claim theorems. -/

/-- C1: for all inputs satisfying the preconditions, optimize_inventory
returns exactly mu_lt = mean_d * lt_mean, sigma_lt = sqrt(lt_mean * std_d^2
+ mean_d^2 * lt_std^2), safety_stock = z * sigma_lt, reorder_point = mu_lt +
safety_stock and base_stock = reorder_point + mu_lt; in particular, for
mean_d=10, std_d=2, lt_mean=7, lt_std=1, target_csl=0.95 it returns mu_lt =
70, sigma_lt = sqrt 128, z = 1.6448536, safety_stock = 1.6448536 * sqrt 128,
reorder_point = 70 + that, and base_stock = reorder_point + 70. -/
theorem C1_optimize_inventory_formulas
    (md sd lm ls : ℝ) (c : ℚ)
    (_h1 : 0 ≤ md) (_h2 : 0 ≤ sd) (_h3 : 0 < lm) (_h4 : 0 ≤ ls)
    (_h5 : 0 < c) (_h6 : c < 1) :
    ((optimize_inventory md sd lm ls c none).mu_lt = md * lm ∧
     (optimize_inventory md sd lm ls c none).sigma_lt =
       Real.sqrt (lm * sd ^ 2 + md ^ 2 * ls ^ 2) ∧
     (optimize_inventory md sd lm ls c none).safety_stock =
       ((z_lookup Z_VALUES c : ℚ) : ℝ) *
         Real.sqrt (lm * sd ^ 2 + md ^ 2 * ls ^ 2) ∧
     (optimize_inventory md sd lm ls c none).reorder_point =
       (optimize_inventory md sd lm ls c none).mu_lt +
         (optimize_inventory md sd lm ls c none).safety_stock ∧
     (optimize_inventory md sd lm ls c none).base_stock =
       (optimize_inventory md sd lm ls c none).reorder_point +
         (optimize_inventory md sd lm ls c none).mu_lt) ∧
    ((optimize_inventory 10 2 7 1 0.95 none).mu_lt = 70 ∧
     (optimize_inventory 10 2 7 1 0.95 none).sigma_lt = Real.sqrt 128 ∧
     z_lookup Z_VALUES 0.95 = 1.6448536 ∧
     (optimize_inventory 10 2 7 1 0.95 none).safety_stock =
       (1.6448536 : ℝ) * Real.sqrt 128 ∧
     (optimize_inventory 10 2 7 1 0.95 none).reorder_point =
       70 + (1.6448536 : ℝ) * Real.sqrt 128 ∧
     (optimize_inventory 10 2 7 1 0.95 none).base_stock =
       (70 + (1.6448536 : ℝ) * Real.sqrt 128) + 70) := by
  constructor
  · exact ⟨rfl, rfl, rfl, rfl, rfl⟩
  · simp only [optimize_inventory, Option.getD_none, z_eval_95]
    norm_num

/-- Witness for C1 at the spec's concrete scenario. -/
theorem C1_witness :
    ((0:ℝ) ≤ 10 ∧ (0:ℝ) ≤ 2 ∧ (0:ℝ) < 7 ∧ (0:ℝ) ≤ 1 ∧ (0:ℚ) < 0.95 ∧
      (0.95:ℚ) < 1) ∧
    (optimize_inventory 10 2 7 1 0.95 none).mu_lt = 10 * 7 :=
  ⟨⟨by norm_num, by norm_num, by norm_num, by norm_num, by norm_num,
      by norm_num⟩,
    (C1_optimize_inventory_formulas 10 2 7 1 0.95 (by norm_num) (by norm_num)
      (by norm_num) (by norm_num) (by norm_num) (by norm_num)).1.1⟩

/-- C2: for every net_available (negative included), reorder_point and
base_stock, compute_replenishment returns 0 when net_available is at or
above the reorder point, and otherwise returns round(max(0, base_stock -
net_available)), a non-negative integer. -/
theorem C2_compute_replenishment (net rop bs : ℚ) :
    (rop ≤ net → compute_replenishment net rop bs = 0) ∧
    (net < rop →
      compute_replenishment net rop bs = roundHalfEven (max 0 (bs - net)) ∧
      0 ≤ compute_replenishment net rop bs) := by
  constructor
  · intro h
    unfold compute_replenishment
    rw [if_neg (not_lt.mpr h)]
  · intro h
    unfold compute_replenishment
    rw [if_pos h]
    exact ⟨max_roundHalfEven _, le_max_left _ _⟩

/-- Witness for C2 at the spec's concrete scenario 3. -/
theorem C2_witness :
    (50:ℚ) < 88.608 ∧
    compute_replenishment 50 88.608 158.608 =
      roundHalfEven (max 0 (158.608 - 50)) :=
  ⟨by norm_num,
    ((C2_compute_replenishment 50 88.608 158.608).2 (by norm_num)).1⟩

/-- C5: optimize_inventory selects z by rounding target_csl to two decimals
and looking it up in the z-table; any target_csl in (0,1) whose rounded
value is absent from the table yields the fixed default z = 1.2815516
without an error, and each of the nine listed keys yields exactly the
listed z value. -/
theorem C5_z_lookup_fallback_and_table :
    (∀ c : ℚ, 0 < c → c < 1 → round2 c ∉ Z_keys →
      z_lookup Z_VALUES c = 1.2815516) ∧
    (∀ md sd lm ls : ℝ, ∀ c : ℚ,
      (optimize_inventory md sd lm ls c none).safety_stock =
        ((z_lookup Z_VALUES c : ℚ) : ℝ) *
          (optimize_inventory md sd lm ls c none).sigma_lt) ∧
    z_lookup Z_VALUES 0.50 = 0.0 ∧ z_lookup Z_VALUES 0.60 = 0.2533471 ∧
    z_lookup Z_VALUES 0.70 = 0.5244005 ∧ z_lookup Z_VALUES 0.80 = 0.8416212 ∧
    z_lookup Z_VALUES 0.85 = 1.0364334 ∧ z_lookup Z_VALUES 0.90 = 1.2815516 ∧
    z_lookup Z_VALUES 0.95 = 1.6448536 ∧ z_lookup Z_VALUES 0.98 = 2.0537489 ∧
    z_lookup Z_VALUES 0.99 = 2.3263479 := by
  refine ⟨?_, fun md sd lm ls c => rfl, z_eval_50, z_eval_60, z_eval_70,
    z_eval_80, z_eval_85, z_eval_90, z_eval_95, z_eval_98, z_eval_99⟩
  intro c h1 h2 h3
  unfold z_lookup
  rw [lookup_eq_none_of_not_mem _ _ h3]
  rfl

/-- Witness for C5 at target_csl = 0.93, absent from the table. -/
theorem C5_witness :
    ((0:ℚ) < 0.93 ∧ (0.93:ℚ) < 1 ∧ round2 (0.93:ℚ) ∉ Z_keys) ∧
    z_lookup Z_VALUES 0.93 = 1.2815516 := by
  have hmem : round2 (0.93:ℚ) ∉ Z_keys := by
    rw [round2_eq_self 93 (by norm_num)]
    simp only [Z_keys, Z_VALUES, List.map_cons, List.map_nil, List.mem_cons,
      List.not_mem_nil, or_false]
    push_neg
    norm_num
  exact ⟨⟨by norm_num, by norm_num, hmem⟩,
    C5_z_lookup_fallback_and_table.1 0.93 (by norm_num) (by norm_num) hmem⟩

/-- C7: for fixed demand and lead-time inputs satisfying the preconditions
and any two keys of the default z-table with the first at most the second,
safety_stock, reorder_point and base_stock are non-decreasing in
target_csl. -/
theorem C7_policy_monotone_in_csl
    (md sd lm ls : ℝ) (c1 c2 : ℚ)
    (_h1 : 0 ≤ md) (_h2 : 0 ≤ sd) (_h3 : 0 < lm) (_h4 : 0 ≤ ls)
    (hc1 : c1 ∈ Z_keys) (hc2 : c2 ∈ Z_keys) (hle : c1 ≤ c2) :
    (optimize_inventory md sd lm ls c1 none).safety_stock ≤
      (optimize_inventory md sd lm ls c2 none).safety_stock ∧
    (optimize_inventory md sd lm ls c1 none).reorder_point ≤
      (optimize_inventory md sd lm ls c2 none).reorder_point ∧
    (optimize_inventory md sd lm ls c1 none).base_stock ≤
      (optimize_inventory md sd lm ls c2 none).base_stock := by
  have hz := z_lookup_mono_on_keys c1 hc1 c2 hc2 hle
  have hzr : ((z_lookup Z_VALUES c1 : ℚ) : ℝ) ≤
      ((z_lookup Z_VALUES c2 : ℚ) : ℝ) := by exact_mod_cast hz
  have hs : (0:ℝ) ≤ Real.sqrt (lm * sd ^ 2 + md ^ 2 * ls ^ 2) :=
    Real.sqrt_nonneg _
  have hss : (optimize_inventory md sd lm ls c1 none).safety_stock ≤
      (optimize_inventory md sd lm ls c2 none).safety_stock :=
    mul_le_mul_of_nonneg_right hzr hs
  exact ⟨hss, add_le_add_left hss (md * lm),
    add_le_add_right (add_le_add_left hss (md * lm)) (md * lm)⟩

/-- Witness for C7 at the table keys 0.90 and 0.95. -/
theorem C7_witness :
    ((0:ℝ) ≤ 10 ∧ (0:ℝ) ≤ 2 ∧ (0:ℝ) < 7 ∧ (0:ℝ) ≤ 1 ∧
      (0.90:ℚ) ∈ Z_keys ∧ (0.95:ℚ) ∈ Z_keys ∧ (0.90:ℚ) ≤ 0.95) ∧
    (optimize_inventory 10 2 7 1 0.90 none).safety_stock ≤
      (optimize_inventory 10 2 7 1 0.95 none).safety_stock :=
  ⟨⟨by norm_num, by norm_num, by norm_num, by norm_num,
      by simp [Z_keys, Z_VALUES], by simp [Z_keys, Z_VALUES], by norm_num⟩,
    (C7_policy_monotone_in_csl 10 2 7 1 0.90 0.95 (by norm_num) (by norm_num)
      (by norm_num) (by norm_num) (by simp [Z_keys, Z_VALUES])
      (by simp [Z_keys, Z_VALUES]) (by norm_num)).1⟩

/-- C8: under the preconditions and the default z-table, the five outputs
of optimize_inventory are all non-negative. -/
theorem C8_outputs_nonneg (md sd lm ls : ℝ) (c : ℚ)
    (h1 : 0 ≤ md) (_h2 : 0 ≤ sd) (h3 : 0 < lm) (_h4 : 0 ≤ ls)
    (_h5 : 0 < c) (_h6 : c < 1) :
    0 ≤ (optimize_inventory md sd lm ls c none).mu_lt ∧
    0 ≤ (optimize_inventory md sd lm ls c none).sigma_lt ∧
    0 ≤ (optimize_inventory md sd lm ls c none).safety_stock ∧
    0 ≤ (optimize_inventory md sd lm ls c none).reorder_point ∧
    0 ≤ (optimize_inventory md sd lm ls c none).base_stock := by
  have hmu : (0:ℝ) ≤ md * lm := mul_nonneg h1 h3.le
  have hsig : (0:ℝ) ≤ Real.sqrt (lm * sd ^ 2 + md ^ 2 * ls ^ 2) :=
    Real.sqrt_nonneg _
  have hz : (0:ℝ) ≤ ((z_lookup Z_VALUES c : ℚ) : ℝ) := by
    exact_mod_cast z_lookup_nonneg c
  have hss : (0:ℝ) ≤ ((z_lookup Z_VALUES c : ℚ) : ℝ) *
      Real.sqrt (lm * sd ^ 2 + md ^ 2 * ls ^ 2) := mul_nonneg hz hsig
  exact ⟨hmu, hsig, hss, add_nonneg hmu hss,
    add_nonneg (add_nonneg hmu hss) hmu⟩

/-- Witness for C8 at a service level outside the table. -/
theorem C8_witness :
    ((0:ℝ) ≤ 3 ∧ (0:ℝ) ≤ 2 ∧ (0:ℝ) < 5 ∧ (0:ℝ) ≤ 1 ∧ (0:ℚ) < 0.93 ∧
      (0.93:ℚ) < 1) ∧
    0 ≤ (optimize_inventory 3 2 5 1 0.93 none).mu_lt :=
  ⟨⟨by norm_num, by norm_num, by norm_num, by norm_num, by norm_num,
      by norm_num⟩,
    (C8_outputs_nonneg 3 2 5 1 0.93 (by norm_num) (by norm_num) (by norm_num)
      (by norm_num) (by norm_num) (by norm_num)).1⟩

/-- C9: with lt_mean positive and lt_std non-negative, the radicand fed to
the square root inside optimize_inventory is non-negative, so sigma_lt is
the well-defined square root of it and is itself non-negative. -/
theorem C9_radicand_nonneg (md sd lm ls : ℝ) (h3 : 0 < lm) (_h4 : 0 ≤ ls) :
    0 ≤ lm * sd ^ 2 + md ^ 2 * ls ^ 2 ∧
    ∀ c : ℚ,
      (optimize_inventory md sd lm ls c none).sigma_lt =
        Real.sqrt (lm * sd ^ 2 + md ^ 2 * ls ^ 2) ∧
      0 ≤ (optimize_inventory md sd lm ls c none).sigma_lt :=
  ⟨add_nonneg (mul_nonneg h3.le (sq_nonneg sd))
      (mul_nonneg (sq_nonneg md) (sq_nonneg ls)),
    fun _c => ⟨rfl, Real.sqrt_nonneg _⟩⟩

/-- Witness for C9 at concrete inputs. -/
theorem C9_witness :
    ((0:ℝ) < 5 ∧ (0:ℝ) ≤ 4) ∧
    0 ≤ (5:ℝ) * 2 ^ 2 + 3 ^ 2 * 4 ^ 2 :=
  ⟨⟨by norm_num, by norm_num⟩,
    (C9_radicand_nonneg 3 2 5 4 (by norm_num) (by norm_num)).1⟩

/-- C3: when no record of the history matches both sku_id and site_id,
forecast_demand returns exactly horizon_days all-zero forecast points
together with mean = 0 and std = 0, without raising an error. -/
theorem C3_empty_filtered_fallback (sales : List SalesRecord)
    (sku site : String) (w hz : ℕ) (_hw : 1 ≤ w) (_hh : 1 ≤ hz)
    (h : ∀ r ∈ sales, ¬(r.sku_id = sku ∧ r.site_id = site)) :
    (forecast_demand sales sku site w hz).1.length = hz ∧
    (∀ p ∈ (forecast_demand sales sku site w hz).1,
      p.p10 = 0 ∧ p.p50 = 0 ∧ p.p90 = 0) ∧
    (forecast_demand sales sku site w hz).2.1 = 0 ∧
    (forecast_demand sales sku site w hz).2.2 = 0 := by
  have hf : filteredHistory sales sku site = [] := by
    simp only [filteredHistory, List.filter_eq_nil_iff]
    intro r hr
    simpa [recordMatches] using h r hr
  have he := forecast_demand_of_empty sales sku site w hz hf
  refine ⟨by rw [he]; simp, ?_, by rw [he]; norm_num, by rw [he]; norm_num⟩
  rw [he]
  intro p hp
  simp only [List.mem_map] at hp
  obtain ⟨i, -, rfl⟩ := hp
  norm_num

/-- Witness for C3: a history with no row for the requested SKU. -/
theorem C3_witness :
    ((1:ℕ) ≤ 3 ∧ (1:ℕ) ≤ 2) ∧
    (forecast_demand [⟨0, "A", "S1", 5⟩] "B" "S1" 3 2).1.length = 2 ∧
    (forecast_demand [⟨0, "A", "S1", 5⟩] "B" "S1" 3 2).2.1 = 0 ∧
    (forecast_demand [⟨0, "A", "S1", 5⟩] "B" "S1" 3 2).2.2 = 0 := by
  have hmatch : ∀ r ∈ ([⟨0, "A", "S1", 5⟩] : List SalesRecord),
      ¬(r.sku_id = "B" ∧ r.site_id = "S1") := by
    intro r hr
    rw [List.mem_singleton] at hr
    subst hr
    simp
  have h3 := C3_empty_filtered_fallback [⟨0, "A", "S1", 5⟩] "B" "S1" 3 2
    (by norm_num) (by norm_num) hmatch
  exact ⟨⟨by norm_num, by norm_num⟩, h3.1, h3.2.2.1, h3.2.2.2⟩

/-- C4: all forecast points carry identical p10, p50 and p90 values (the
horizon only changes the count of points), and whenever the computed std is
0 every point has p10 = p50 = p90 = mean. -/
theorem C4_flat_projection (sales : List SalesRecord) (sku site : String)
    (w hz : ℕ) :
    (forecast_demand sales sku site w hz).1.length = hz ∧
    (∀ p ∈ (forecast_demand sales sku site w hz).1,
      ∀ q ∈ (forecast_demand sales sku site w hz).1,
        p.p10 = q.p10 ∧ p.p50 = q.p50 ∧ p.p90 = q.p90) ∧
    ((forecast_demand sales sku site w hz).2.2 = 0 →
      ∀ p ∈ (forecast_demand sales sku site w hz).1,
        p.p10 = (forecast_demand sales sku site w hz).2.1 ∧
        p.p50 = (forecast_demand sales sku site w hz).2.1 ∧
        p.p90 = (forecast_demand sales sku site w hz).2.1) := by
  have hsh := forecast_points_shape sales sku site w hz
  refine ⟨?_, ?_, ?_⟩
  · rw [hsh]
    simp
  · rw [hsh]
    intro p hp q hq
    simp only [List.mem_map] at hp hq
    obtain ⟨i, -, rfl⟩ := hp
    obtain ⟨j, -, rfl⟩ := hq
    by_cases hstd : 0 < (forecast_demand sales sku site w hz).2.2
    · simp [hstd]
    · simp [hstd]
  · intro h0
    rw [hsh]
    intro p hp
    simp only [List.mem_map] at hp
    obtain ⟨i, -, rfl⟩ := hp
    simp only [h0]
    rw [if_neg (lt_irrefl (0:ℝ))]
    exact ⟨rfl, rfl, rfl⟩

/-- Witness for C4 on an empty history, where std is 0. -/
theorem C4_witness :
    (forecast_demand [] "A" "S" 3 2).2.2 = 0 ∧
    (forecast_demand [] "A" "S" 3 2).1.headI.p10 =
      (forecast_demand [] "A" "S" 3 2).2.1 := by
  have h4 := C4_flat_projection [] "A" "S" 3 2
  have hstd : (forecast_demand [] "A" "S" 3 2).2.2 = 0 := by
    rw [forecast_demand_of_empty [] "A" "S" 3 2 rfl]
    norm_num
  have hne : (forecast_demand [] "A" "S" 3 2).1 ≠ [] := by
    intro hnil
    have hlen := h4.1
    rw [hnil] at hlen
    simp at hlen
  exact ⟨hstd, (h4.2.2 hstd _ (headI_mem_of_ne_nil hne)).1⟩

/-- C6: for a non-empty filtered history, the statistics of forecast_demand
are computed over exactly the last min(window_days, series_length) entries
of the zero-filled daily series: the returned mean is the arithmetic mean
of that window and the returned std is its population standard deviation
(divisor N), with std = 0 whenever the window has fewer than 2 entries. -/
theorem C6_statistics_window (sales : List SalesRecord) (sku site : String)
    (w hz : ℕ) (hne : filteredHistory sales sku site ≠ []) (hw : 1 ≤ w) :
    statsWindow sales sku site w <:+
      aggregate_daily_series (filteredHistory sales sku site) ∧
    (statsWindow sales sku site w).length =
      min w (aggregate_daily_series (filteredHistory sales sku site)).length ∧
    (forecast_demand sales sku site w hz).2.1 =
      (((statsWindow sales sku site w).sum /
        ((statsWindow sales sku site w).length : ℚ) : ℚ) : ℝ) ∧
    (2 ≤ (statsWindow sales sku site w).length →
      (forecast_demand sales sku site w hz).2.2 =
        Real.sqrt (((((statsWindow sales sku site w).map
          (fun x => (x - (statsWindow sales sku site w).sum /
            ((statsWindow sales sku site w).length : ℚ)) ^ 2)).sum /
          ((statsWindow sales sku site w).length : ℚ) : ℚ) : ℝ))) ∧
    ((statsWindow sales sku site w).length < 2 →
      (forecast_demand sales sku site w hz).2.2 = 0) := by
  have hwin : statsWindow sales sku site w ≠ [] := statsWindow_ne_nil hne hw
  have hmean := forecast_mean_of_nonempty sales sku site w hz hne
  have hstd := forecast_std_of_nonempty sales sku site w hz hne
  have hlm := listMean_of_ne_nil hwin
  refine ⟨tailN_suffix _ _, statsWindow_length _ _ _ _, ?_, ?_, ?_⟩
  · rw [hmean, hlm]
  · intro h2
    rw [hstd, if_pos (by omega : 1 < (statsWindow sales sku site w).length)]
    unfold listStd popVar
    rw [hlm]
  · intro h2
    rw [hstd, if_neg (by omega)]
    norm_num

/-- Witness for C6 on a two-day history with a one-day window. -/
theorem C6_witness :
    (filteredHistory [⟨0, "A", "S", 2⟩, ⟨1, "A", "S", 4⟩] "A" "S" ≠ [] ∧
      (1:ℕ) ≤ 1) ∧
    (statsWindow [⟨0, "A", "S", 2⟩, ⟨1, "A", "S", 4⟩] "A" "S" 1).length =
      min 1 (aggregate_daily_series (filteredHistory
        [⟨0, "A", "S", 2⟩, ⟨1, "A", "S", 4⟩] "A" "S")).length ∧
    (forecast_demand [⟨0, "A", "S", 2⟩, ⟨1, "A", "S", 4⟩] "A" "S" 1 1).2.2 =
      0 := by
  have hne : filteredHistory [⟨0, "A", "S", 2⟩, ⟨1, "A", "S", 4⟩] "A" "S"
      ≠ [] := by
    simp [filteredHistory, recordMatches]
  have h6 := C6_statistics_window [⟨0, "A", "S", 2⟩, ⟨1, "A", "S", 4⟩]
    "A" "S" 1 1 hne (le_refl 1)
  refine ⟨⟨hne, le_refl 1⟩, h6.2.1, h6.2.2.2.2 ?_⟩
  rw [statsWindow_length]
  omega

/-- C10: whenever the computed window mean is non-negative, every emitted
forecast point satisfies 0 <= p10 <= p50 <= p90; when std > 0 the quantiles
are the clamped normal quantiles around the mean, and when std = 0 all
three equal the mean. -/
theorem C10_quantile_ordering (sales : List SalesRecord) (sku site : String)
    (w hz : ℕ) (hmean0 : 0 ≤ (forecast_demand sales sku site w hz).2.1) :
    ∀ p ∈ (forecast_demand sales sku site w hz).1,
      (0 ≤ p.p10 ∧ p.p10 ≤ p.p50 ∧ p.p50 ≤ p.p90) ∧
      (0 < (forecast_demand sales sku site w hz).2.2 →
        p.p10 = max 0 ((forecast_demand sales sku site w hz).2.1 -
          1.2815515655446004 * (forecast_demand sales sku site w hz).2.2) ∧
        p.p90 = max 0 ((forecast_demand sales sku site w hz).2.1 +
          1.2815515655446004 * (forecast_demand sales sku site w hz).2.2)) ∧
      ((forecast_demand sales sku site w hz).2.2 = 0 →
        p.p10 = (forecast_demand sales sku site w hz).2.1 ∧
        p.p50 = (forecast_demand sales sku site w hz).2.1 ∧
        p.p90 = (forecast_demand sales sku site w hz).2.1) := by
  rw [forecast_points_shape]
  set m := (forecast_demand sales sku site w hz).2.1 with hmdef
  set s := (forecast_demand sales sku site w hz).2.2 with hsdef
  intro p hp
  simp only [List.mem_map] at hp
  obtain ⟨i, -, rfl⟩ := hp
  by_cases hstd : 0 < s
  · rw [if_pos hstd]
    have hzs : (0:ℝ) ≤ 1.2815515655446004 * s :=
      mul_nonneg (by norm_num) hstd.le
    have hneg : m + (-1.2815515655446004) * s ≤ m := by nlinarith
    have hpos : m ≤ m + 1.2815515655446004 * s := by linarith
    have h00 : (0.0:ℝ) = 0 := by norm_num
    refine ⟨⟨?_, ?_, ?_⟩, fun _ => ⟨?_, ?_⟩,
      fun h0 => absurd hstd (by rw [h0]; exact lt_irrefl 0)⟩
    · show (0:ℝ) ≤ max 0.0 (m + (-1.2815515655446004) * s)
      rw [h00]
      exact le_max_left _ _
    · show max 0.0 (m + (-1.2815515655446004) * s) ≤ m
      rw [h00]
      exact max_le hmean0 hneg
    · show m ≤ max 0.0 (m + 1.2815515655446004 * s)
      exact le_trans hpos (le_max_right _ _)
    · show max 0.0 (m + (-1.2815515655446004) * s) =
        max 0 (m - 1.2815515655446004 * s)
      rw [h00]
      ring_nf
    · show max 0.0 (m + 1.2815515655446004 * s) =
        max 0 (m + 1.2815515655446004 * s)
      rw [h00]
  · rw [if_neg hstd]
    refine ⟨⟨?_, le_refl _, le_refl _⟩, fun hc => absurd hc hstd,
      fun _ => ⟨rfl, rfl, rfl⟩⟩
    show (0:ℝ) ≤ m
    exact hmean0

/-- Witness for C10 on an empty history, whose mean is 0. -/
theorem C10_witness :
    0 ≤ (forecast_demand [] "Q" "R" 1 1).2.1 ∧
    0 ≤ (forecast_demand [] "Q" "R" 1 1).1.headI.p10 := by
  have hmean : (forecast_demand [] "Q" "R" 1 1).2.1 = 0 := by
    rw [forecast_demand_of_empty [] "Q" "R" 1 1 rfl]
    norm_num
  have h10 := C10_quantile_ordering [] "Q" "R" 1 1 (by simp [hmean])
  have hne : (forecast_demand [] "Q" "R" 1 1).1 ≠ [] := by
    rw [forecast_demand_of_empty [] "Q" "R" 1 1 rfl]
    simp
  exact ⟨by simp [hmean], (h10 _ (headI_mem_of_ne_nil hne)).1.1⟩

end SupplyChain
